import Mathlib

/-
Verification of the geographic classification and record-normalization layer
of the UntilEveryCage map application.  The definitions below are a shallow
embedding of the JavaScript functions in src/static/app.js (the current
application script) and src/static/modules/geoUtils.js: region registry
tables, country/region classification, the facility-type mapper, the filter
engine, the German-location loader pass, and the CSV row normalizers.
JavaScript strings are Lean Strings; possibly-absent (undefined/null) fields
are Option values; JavaScript numbers holding coordinates are rationals.
-/

namespace UntilEveryCage

/-! ### JavaScript string primitives -/

/-- Whitespace characters recognised by JavaScript's String.trim. -/
def isJsSpace (c : Char) : Bool :=
  c = ' ' || c = '\t' || c = '\n' || c = '\r' || c = '\x0b' || c = '\x0c'

/-- JavaScript String.trim: strip whitespace from both ends. -/
def jsTrim (s : String) : String :=
  String.mk (((s.data.dropWhile isJsSpace).reverse.dropWhile isJsSpace).reverse)

/-- Substring test on character lists: does the second list contain the first
one as a contiguous run?  Mirrors JavaScript String.includes. -/
def containsSub (n : List Char) : List Char → Bool
  | [] => n.isEmpty
  | c :: t => n.isPrefixOf (c :: t) || containsSub n t

/-- JavaScript hay.includes(needle). -/
def sIncludes (hay needle : String) : Bool :=
  containsSub needle.data hay.data

/-- JavaScript s.toLowerCase(), character by character. -/
def jsToLower (s : String) : String :=
  String.mk (s.data.map Char.toLower)

/-- JavaScript s.split(sep) for a single-character separator. -/
def splitCharAux (sep : Char) : List Char → List Char → List String
  | [], cur => [String.mk cur.reverse]
  | c :: t, cur =>
    if c = sep then String.mk cur.reverse :: splitCharAux sep t []
    else splitCharAux sep t (c :: cur)

def splitChar (sep : Char) (s : String) : List String :=
  splitCharAux sep s.data []

/-- JavaScript s.charAt(0).toUpperCase() + s.slice(1). -/
def capFirst (s : String) : String :=
  match s.data with
  | [] => ""
  | c :: t => String.mk (c.toUpper :: t)

/-- First-match semantics of the regexes /pat \(([^)]+)\)/ used by the
facility-type mapper: scan for the literal `pat` followed by a non-empty
parenthesised group and return the group's content. -/
def scanParen (pat : List Char) : List Char → Option (List Char)
  | [] => none
  | c :: t =>
    if pat.isPrefixOf (c :: t) then
      let rest := (c :: t).drop pat.length
      let cap := rest.takeWhile (fun x => x ≠ ')')
      if cap.isEmpty then scanParen pat t
      else if (rest.drop cap.length).head? = some ')' then some cap
      else scanParen pat t
    else scanParen pat t

/-- String-level wrapper for `scanParen`; `pat` already ends with "(". -/
def matchParenGroup (pat s : String) : Option String :=
  (scanParen pat.data s.data).map String.mk

/-- JavaScript s.replace(/ ,/g, ','). -/
def replaceSpCommaL : List Char → List Char
  | [] => []
  | ' ' :: ',' :: t => ',' :: replaceSpCommaL t
  | c :: t => c :: replaceSpCommaL t

def replaceSpComma (s : String) : String :=
  String.mk (replaceSpCommaL s.data)

/-- JavaScript s.replace(/^,|,$/g, ''): drop one leading and one trailing
comma. -/
def stripEdgeCommas (s : String) : String :=
  let l := s.data
  let l1 := match l with
    | ',' :: t => t
    | _ => l
  let l2 := match l1.reverse with
    | ',' :: t => t.reverse
    | _ => l1
  String.mk l2

/-- JavaScript s.split(/\s+/): split on maximal whitespace runs, keeping the
empty pieces a leading or trailing run produces. -/
def splitWsAux : List Char → List Char → List String
  | [], cur => [String.mk cur.reverse]
  | c :: t, cur =>
    if isJsSpace c then
      String.mk cur.reverse :: splitWsAux (t.dropWhile isJsSpace) []
    else
      splitWsAux t (c :: cur)
termination_by l _ => l.length
decreasing_by
  · simp only [List.length_cons]
    exact Nat.lt_succ_of_le (List.dropWhile_sublist _).length_le
  · simp only [List.length_cons]
    exact Nat.lt_succ_self _

def splitWs (s : String) : List String :=
  splitWsAux s.data []

/-- JavaScript a || b where a is a possibly-absent string: an undefined or
empty-string value falls through to b. -/
def jsOrS : Option String → String → String
  | some s, b => if s = "" then b else s
  | none, b => b

/-- Truthiness of a possibly-absent JavaScript string. -/
def jsTruthyS (o : Option String) : Bool :=
  o.getD "" ≠ ""

/-! ### Region Registry tables (app.js lines 801-870) -/

def US_STATE_NAMES : List (String × String) := [
  ("AL", "Alabama"), ("AK", "Alaska"), ("AZ", "Arizona"), ("AR", "Arkansas"), ("CA", "California"),
  ("CO", "Colorado"), ("CT", "Connecticut"), ("DE", "Delaware"), ("FL", "Florida"), ("GA", "Georgia"),
  ("HI", "Hawaii"), ("ID", "Idaho"), ("IL", "Illinois"), ("IN", "Indiana"), ("IA", "Iowa"),
  ("KS", "Kansas"), ("KY", "Kentucky"), ("LA", "Louisiana"), ("ME", "Maine"), ("MD", "Maryland"),
  ("MA", "Massachusetts"), ("MI", "Michigan"), ("MN", "Minnesota"), ("MS", "Mississippi"), ("MO", "Missouri"),
  ("MT", "Montana"), ("NE", "Nebraska"), ("NV", "Nevada"), ("NH", "New Hampshire"), ("NJ", "New Jersey"),
  ("NM", "New Mexico"), ("NY", "New York"), ("NC", "North Carolina"), ("ND", "North Dakota"), ("OH", "Ohio"),
  ("OK", "Oklahoma"), ("OR", "Oregon"), ("PA", "Pennsylvania"), ("RI", "Rhode Island"), ("SC", "South Carolina"),
  ("SD", "South Dakota"), ("TN", "Tennessee"), ("TX", "Texas"), ("UT", "Utah"), ("VT", "Vermont"),
  ("VA", "Virginia"), ("WA", "Washington"), ("WV", "West Virginia"), ("WI", "Wisconsin"), ("WY", "Wyoming"),
  ("DC", "District of Columbia"), ("AS", "American Samoa"), ("GU", "Guam"), ("MP", "Northern Mariana Islands"),
  ("PR", "Puerto Rico"), ("VI", "U.S. Virgin Islands")]

def GERMAN_STATE_NAMES : List (String × String) := [
  ("BW", "Baden-Württemberg"), ("BY", "Bayern"), ("BE", "Berlin"), ("BB", "Brandenburg"),
  ("HB", "Bremen"), ("HH", "Hamburg"), ("HE", "Hessen"), ("MV", "Mecklenburg-Vorpommern"),
  ("NI", "Niedersachsen"), ("NW", "Nordrhein-Westfalen"), ("RP", "Rheinland-Pfalz"),
  ("SL", "Saarland"), ("SN", "Sachsen"), ("ST", "Sachsen-Anhalt"), ("SH", "Schleswig-Holstein"), ("TH", "Thüringen"),
  ("DE_UNKNOWN", "Deutschland (Unspecified)")]

def SPANISH_STATE_NAMES : List (String × String) := [
  ("Andalucía", "Andalucía"),
  ("Aragón", "Aragón"),
  ("Asturias", "Asturias"),
  ("Canarias", "Canarias"),
  ("Cantabria", "Cantabria"),
  ("Castilla-La Mancha", "Castilla-La Mancha"),
  ("Castilla y León", "Castilla y León"),
  ("Cataluña", "Cataluña"),
  ("Catalunya", "Catalunya"),
  ("Comunidad de Madrid", "Comunidad de Madrid"),
  ("Comunidad Valenciana", "Comunidad Valenciana"),
  ("Euskadi", "Euskadi"),
  ("Extremadura", "Extremadura"),
  ("Galicia", "Galicia"),
  ("Ililles Balears", "Illes Balears"),
  ("La Coruña", "La Coruña"),
  ("La Rioja", "La Rioja"),
  ("Navarra", "Navarra"),
  ("País Vasco", "País Vasco"),
  ("Región de Murcia", "Región de Murcia"),
  ("ES_UNKNOWN", "España (Unspecified)")]

/-- The apostrophe character, used inside three French department names. -/
def apoc : String := String.mk [Char.ofNat 39]

def FRENCH_STATE_NAMES : List (String × String) := [
  ("01", "Ain"), ("02", "Aisne"), ("03", "Allier"), ("04", "Alpes-de-Haute-Provence"), ("05", "Hautes-Alpes"),
  ("06", "Alpes-Maritimes"), ("07", "Ardèche"), ("08", "Ardennes"), ("09", "Ariège"), ("10", "Aube"),
  ("11", "Aude"), ("12", "Aveyron"), ("13", "Bouches-du-Rhône"), ("14", "Calvados"), ("15", "Cantal"),
  ("16", "Charente"), ("17", "Charente-Maritime"), ("18", "Cher"), ("19", "Corrèze"), ("21", "Côte-d" ++ apoc ++ "Or"),
  ("22", "Côtes-d" ++ apoc ++ "Armor"), ("23", "Creuse"), ("24", "Dordogne"), ("25", "Doubs"), ("26", "Drôme"),
  ("27", "Eure"), ("28", "Eure-et-Loir"), ("29", "Finistère"), ("30", "Gard"), ("31", "Haute-Garonne"),
  ("32", "Gers"), ("33", "Gironde"), ("34", "Hérault"), ("35", "Ille-et-Vilaine"), ("36", "Indre"),
  ("37", "Indre-et-Loire"), ("38", "Isère"), ("39", "Jura"), ("40", "Landes"), ("41", "Loir-et-Cher"),
  ("42", "Loire"), ("43", "Haute-Loire"), ("44", "Loire-Atlantique"), ("45", "Loiret"), ("46", "Lot"),
  ("47", "Lot-et-Garonne"), ("48", "Lozère"), ("49", "Maine-et-Loire"), ("50", "Manche"), ("51", "Marne"),
  ("52", "Haute-Marne"), ("53", "Mayenne"), ("54", "Meurthe-et-Moselle"), ("55", "Meuse"), ("56", "Morbihan"),
  ("57", "Moselle"), ("58", "Nièvre"), ("59", "Nord"), ("60", "Oise"), ("61", "Orne"), ("62", "Pas-de-Calais"),
  ("63", "Puy-de-Dôme"), ("64", "Pyrénées-Atlantiques"), ("65", "Hautes-Pyrénées"), ("66", "Pyrénées-Orientales"),
  ("67", "Bas-Rhin"), ("68", "Haut-Rhin"), ("69", "Rhône"), ("70", "Haute-Saône"), ("71", "Saône-et-Loire"),
  ("72", "Sarthe"), ("73", "Savoie"), ("74", "Haute-Savoie"), ("75", "Paris"), ("76", "Seine-Maritime"),
  ("77", "Seine-et-Marne"), ("78", "Yvelines"), ("79", "Deux-Sèvres"), ("80", "Somme"), ("81", "Tarn"),
  ("82", "Tarn-et-Garonne"), ("83", "Var"), ("84", "Vaucluse"), ("85", "Vendée"), ("86", "Vienne"),
  ("87", "Haute-Vienne"), ("88", "Vosges"), ("89", "Yonne"), ("90", "Territoire de Belfort"),
  ("91", "Essonne"), ("92", "Hauts-de-Seine"), ("93", "Seine-Saint-Denis"), ("94", "Val-de-Marne"),
  ("95", "Val-d" ++ apoc ++ "Oise"), ("971", "Guadeloupe"), ("972", "Martinique"), ("973", "Guyane"),
  ("974", "La Réunion"), ("976", "Mayotte"), ("FR_UNKNOWN", "France (Unspecified)")]

/-- Property lookup on a registry table (JavaScript TABLE[key]). -/
def lookupTab (t : List (String × String)) (k : String) : Option String :=
  (t.find? (fun p => p.1 == k)).map (fun p => p.2)

/-- JavaScript TABLE.hasOwnProperty(key). -/
def hasKey (t : List (String × String)) (k : String) : Bool :=
  (lookupTab t k).isSome

/-! ### Country/Region Classifier (app.js lines 874-906, 1016-1032) -/

def getStateDisplayName (stateCode : String) : String :=
  jsOrS (lookupTab US_STATE_NAMES stateCode)
    (jsOrS (lookupTab GERMAN_STATE_NAMES stateCode)
      (jsOrS (lookupTab SPANISH_STATE_NAMES stateCode)
        (jsOrS (lookupTab FRENCH_STATE_NAMES stateCode) stateCode)))

def isUSState (stateCode : String) : Bool :=
  hasKey US_STATE_NAMES stateCode

def isGermanState (stateCode : String) : Bool :=
  hasKey GERMAN_STATE_NAMES stateCode || stateCode == "DE_UNKNOWN"

def isSpanishState (stateCode : String) : Bool :=
  hasKey SPANISH_STATE_NAMES stateCode || stateCode == "ES_UNKNOWN"

def isFrenchState (stateCode : String) : Bool :=
  hasKey FRENCH_STATE_NAMES stateCode || stateCode == "FR_UNKNOWN"

def isUKState (stateCode : String) : Bool :=
  !isUSState stateCode && !isGermanState stateCode && !isSpanishState stateCode &&
    !isFrenchState stateCode && stateCode ≠ "" && jsTrim stateCode ≠ ""

def getSelectedCountryForState (stateCode : String) : String :=
  if isUSState stateCode then "US"
  else if isGermanState stateCode then "DE"
  else if isSpanishState stateCode then "ES"
  else if isFrenchState stateCode then "FR"
  else if isUKState stateCode then "UK"
  else "all"

/-! ### Facility-Type Mapper (app.js lines 588-746) -/

structure FacilityMapping where
  iconType : String
  displayLabel : String
  category : String
deriving DecidableEq

/-- The invariant expected of every facility mapping the mapper can return:
the icon type equals the category and the category is one of the four fixed
buckets. -/
def GoodMapping (m : FacilityMapping) : Prop :=
  m.iconType = m.category ∧
  (m.category = "slaughter" ∨ m.category = "processing" ∨
   m.category = "breeder" ∨ m.category = "exhibitor")

/-- The fixed animal-keyword list scanned by the generic farm rule. -/
def animalTypes : List String :=
  ["dairy", "pig", "poultry", "cattle", "beef", "sheep", "goat", "chicken", "duck",
   "turkey", "lamb", "horse", "deer", "rabbit", "pheasant", "quail", "ostrich",
   "emu", "bison", "buffalo", "elk", "goose"]

/-- mapFacilityType(facilityTypeString, establishmentName): ordered
case-insensitive substring rules mapping a raw type string to an icon type,
display label and category.  The establishment name parameter is accepted but
unused, as in the source. -/
def mapFacilityType (facilityTypeString : Option String) (_establishmentName : Option String) :
    FacilityMapping :=
  if facilityTypeString.getD "" = "" then
    ⟨"processing", "Processing Facility", "processing"⟩
  else
    let type := jsToLower (facilityTypeString.getD "")
    if sIncludes type "dairy farm" then ⟨"breeder", "Dairy Farm", "breeder"⟩
    else if sIncludes type "intensive pig farm" then ⟨"breeder", "Intensive Pig Farm", "breeder"⟩
    else if sIncludes type "intensive poultry farm" then ⟨"breeder", "Intensive Poultry Farm", "breeder"⟩
    else if sIncludes type "intensive sow pig farm" then ⟨"breeder", "Intensive Sow Pig Farm", "breeder"⟩
    else if sIncludes type "finishing unit" then ⟨"breeder", "Finishing Unit", "breeder"⟩
    else if sIncludes type "mixed farm" then
      match matchParenGroup "mixed farm (" type with
      | some g => ⟨"breeder", "Mixed Farm (" ++ g ++ ")", "breeder"⟩
      | none => ⟨"breeder", "Mixed Farm", "breeder"⟩
    else if sIncludes type "cattle slaughterhouse" then ⟨"slaughter", "Cattle Slaughterhouse", "slaughter"⟩
    else if sIncludes type "pig slaughterhouse" then ⟨"slaughter", "Pig Slaughterhouse", "slaughter"⟩
    else if sIncludes type "poultry slaughterhouse" then ⟨"slaughter", "Poultry Slaughterhouse", "slaughter"⟩
    else if sIncludes type "sheep & lamb slaughterhouse" then ⟨"slaughter", "Sheep & Lamb Slaughterhouse", "slaughter"⟩
    else if sIncludes type "goat slaughterhouse" then ⟨"slaughter", "Goat Slaughterhouse", "slaughter"⟩
    else if sIncludes type "horse slaughterhouse" then ⟨"slaughter", "Horse Slaughterhouse", "slaughter"⟩
    else if sIncludes type "other mammal slaughterhouse" then ⟨"slaughter", "Other Mammal Slaughterhouse", "slaughter"⟩
    else if sIncludes type "large bird slaughterhouse" then ⟨"slaughter", "Large Bird Slaughterhouse", "slaughter"⟩
    else if sIncludes type "wild bird slaughterhouse" then ⟨"slaughter", "Wild Bird Slaughterhouse", "slaughter"⟩
    else if sIncludes type "wild rabbit slaughterhouse" then ⟨"slaughter", "Wild Rabbit Slaughterhouse", "slaughter"⟩
    else if sIncludes type "mixed slaughterhouse" then
      match matchParenGroup "mixed slaughterhouse (" type with
      | some g => ⟨"slaughter", "Mixed Slaughterhouse (" ++ g ++ ")", "slaughter"⟩
      | none => ⟨"slaughter", "Mixed Slaughterhouse", "slaughter"⟩
    else if sIncludes type "meat slaughter" || sIncludes type "slaughter" then
      ⟨"slaughter", "Slaughterhouse", "slaughter"⟩
    else if sIncludes type "pig breeding farm" then ⟨"breeder", "Pig Breeding Farm", "breeder"⟩
    else if sIncludes type "pig farm" then ⟨"breeder", "Pig Farm", "breeder"⟩
    else if sIncludes type "poultry farm" then ⟨"breeder", "Poultry Farm", "breeder"⟩
    else if sIncludes type "aquaculture" then ⟨"breeder", "Aquaculture Facility", "breeder"⟩
    else if sIncludes type "farm" && !sIncludes type "slaughter" then
      match animalTypes.find? (fun a => sIncludes type a) with
      | some animal => ⟨"breeder", capFirst animal ++ " Farm", "breeder"⟩
      | none =>
        if sIncludes type "intensive" then ⟨"breeder", "Intensive Farm", "breeder"⟩
        else ⟨"breeder", "Farm", "breeder"⟩
    else if sIncludes type "animal production" then
      if sIncludes type "hunting" || sIncludes type "game" then
        ⟨"breeder", "Game/Hunting Facility", "breeder"⟩
      else ⟨"breeder", "Animal Farm", "breeder"⟩
    else if sIncludes type "exhibition" then ⟨"exhibitor", "Exhibition Facility", "exhibitor"⟩
    else if sIncludes type "aquatic" then
      if sIncludes type "processing" then ⟨"slaughter", "Aquatic Processing Facility", "slaughter"⟩
      else ⟨"breeder", "Aquatic Production Facility", "breeder"⟩
    else ⟨"processing", "Processing Facility", "processing"⟩

/-! ### Records and the Filter Engine (app.js lines 1254-1427) -/

/-- A USDA/industrial facility record.  All string fields are optional
(undefined in the JSON is `none`); coordinates are rationals. -/
structure UsdaLoc where
  establishment_name : Option String
  establishment_id : Option String
  state : Option String
  city : Option String
  street : Option String
  zip : Option String
  phone : Option String
  dbas : Option String
  animals_slaughtered : Option String
  animals_processed : Option String
  type : Option String
  country : Option String
  latitude : Option Rat
  longitude : Option Rat

/-- The user-controlled filter inputs read by applyFilters: the two dropdown
values, the raw search box content, and the six category checkboxes. -/
structure FilterState where
  selectedCountry : String
  selectedState : String
  searchRaw : String
  showSlaughter : Bool
  showProcessing : Bool
  showLabs : Bool
  showBreeders : Bool
  showDealers : Bool
  showExhibitors : Bool

/-- searchSynonyms[searchTerm] || searchTerm. -/
def searchSynonym (s : String) : String :=
  if s = "cow" then "cattle" else if s = "cows" then "cattle" else s

/-- Country-filter clause of applyFilters for a USDA location. -/
def usdaCountryMatch (selectedCountry : String) (loc : UsdaLoc) : Bool :=
  selectedCountry == "all" ||
  (selectedCountry == "US" && isUSState (loc.state.getD "")) ||
  (selectedCountry == "DE" && isGermanState (loc.state.getD "")) ||
  (selectedCountry == "ES" && isSpanishState (loc.state.getD "")) ||
  (selectedCountry == "FR" && loc.country == some "fr") ||
  (selectedCountry == "DK" && loc.country == some "dk") ||
  (selectedCountry == "UK" && isUKState (loc.state.getD ""))

/-- State/region-filter clause of applyFilters for a USDA location, including
the France and Denmark special cases. -/
def usdaStateMatch (selectedCountry selectedState : String) (loc : UsdaLoc) : Bool :=
  if selectedCountry == "FR" then true
  else if selectedCountry == "DK" then
    selectedState == "all" || loc.city == some selectedState
  else
    selectedState == "all" || loc.state == some selectedState

/-- Search-term clause of applyFilters for a USDA location, with the cow →
cattle synonym applied only to the animal fields. -/
def usdaSearchMatch (searchRaw : String) (loc : UsdaLoc) : Bool :=
  let searchTerm := jsTrim (jsToLower searchRaw)
  if searchTerm = "" then true
  else
    let effectiveSearchTerm := searchSynonym searchTerm
    let nameMatch :=
      (jsTruthyS loc.establishment_name &&
        sIncludes (jsToLower (loc.establishment_name.getD "")) searchTerm) ||
      (jsTruthyS loc.dbas && sIncludes (jsToLower (loc.dbas.getD "")) searchTerm)
    let animalMatch :=
      (jsTruthyS loc.animals_slaughtered &&
        sIncludes (jsToLower (loc.animals_slaughtered.getD "")) effectiveSearchTerm) ||
      (jsTruthyS loc.animals_processed &&
        sIncludes (jsToLower (loc.animals_processed.getD "")) effectiveSearchTerm)
    let facilityType := mapFacilityType loc.type loc.establishment_name
    let facilityTypeMatch :=
      facilityType.displayLabel ≠ "" &&
        sIncludes (jsToLower facilityType.displayLabel) searchTerm
    nameMatch || animalMatch || facilityTypeMatch

/-- Membership of a USDA location in filteredUsdaLocations. -/
def usdaPasses (fs : FilterState) (loc : UsdaLoc) : Bool :=
  usdaCountryMatch fs.selectedCountry loc &&
  usdaStateMatch fs.selectedCountry fs.selectedState loc &&
  usdaSearchMatch fs.searchRaw loc

/-- Category gating: a filtered USDA location is plotted exactly when the
checkbox of its mapped category is enabled (slaughterhouses, processingPlants,
breedingFacilities and exhibitionFacilities groups of applyFilters). -/
def usdaCategoryEnabled (fs : FilterState) (loc : UsdaLoc) : Bool :=
  let c := (mapFacilityType loc.type loc.establishment_name).category
  (c == "slaughter" && fs.showSlaughter) ||
  (c == "processing" && fs.showProcessing) ||
  (c == "breeder" && fs.showBreeders) ||
  (c == "exhibitor" && fs.showExhibitors)

/-- The visible subset of the USDA dataset computed by the filter engine. -/
def usdaVisible (fs : FilterState) (loc : UsdaLoc) : Bool :=
  usdaPasses fs loc && usdaCategoryEnabled fs loc

/-! ### German-location loader pass (app.js lines 1896-1917) -/

/-- The sixteen Bundesland codes of the establishment-ID regex
/^(BW|BY|BE|BB|HB|HH|HE|MV|NI|NW|RP|SL|SN|ST|SH|TH)\s/. -/
def GERMAN_ID_CODES : List String :=
  ["BW", "BY", "BE", "BB", "HB", "HH", "HE", "MV", "NI", "NW", "RP", "SL", "SN", "ST", "SH", "TH"]

/-- Extraction of a German state code from the front of a character list:
two leading characters forming a Bundesland code followed by whitespace. -/
def germanIdCodeL : List Char → Option String
  | c1 :: c2 :: c3 :: _ =>
    let code := String.mk [c1, c2]
    if GERMAN_ID_CODES.contains code && isJsSpace c3 then some code else none
  | _ => none

/-- Extraction of a German state code from the front of an establishment ID. -/
def germanIdCode (idOpt : Option String) : Option String :=
  match idOpt with
  | none => none
  | some id => germanIdCodeL id.data

/-- JavaScript o > b on a possibly-absent number (undefined compares false). -/
def jsNumGT (o : Option Rat) (b : Rat) : Bool :=
  match o with
  | some r => decide (b < r)
  | none => false

/-- JavaScript o < b on a possibly-absent number (undefined compares false). -/
def jsNumLT (o : Option Rat) (b : Rat) : Bool :=
  match o with
  | some r => decide (r < b)
  | none => false

/-- The loader's per-location German-state inference: fill a blank state field
from the establishment-ID Bundesland code, else from Germany's approximate
bounding box. -/
def processGermanLocation (loc : UsdaLoc) : UsdaLoc :=
  if loc.state.getD "" == "" || jsTrim (loc.state.getD "") == "" then
    match germanIdCode loc.establishment_id with
    | some code => { loc with state := some code }
    | none =>
      if jsNumGT loc.latitude 47 && jsNumLT loc.latitude 56 &&
         jsNumGT loc.longitude 5 && jsNumLT loc.longitude 16 then
        { loc with state := some "DE_UNKNOWN" }
      else loc
  else loc

/-! ### Record Normalizers / Export Projectors
(app.js lines 1077-1146, geoUtils.js lines 138-228) -/

/-- A JavaScript value stored in a normalized export row: a string, a number,
or undefined.  The normalizers are expected never to produce `undef`. -/
inductive JsVal where
  | str : String → JsVal
  | num : Rat → JsVal
  | undef : JsVal
deriving DecidableEq

/-- An APHIS research-registrant (lab) record. -/
structure LabRec where
  accountName : Option String
  addressLine1 : Option String
  addressLine2 : Option String
  cityStateZip : Option String
  certificateNumber : Option String
  animalsTestedOn : Option String
  registrationType : Option String
  latitude : Option Rat
  longitude : Option Rat

/-- An inspection-report (license registrant) record.  The Geocodio
coordinates arrive as strings in this dataset. -/
structure InspRec where
  accountName : Option String
  licenseType : Option String
  addressLine1 : Option String
  cityStateZip : Option String
  state : Option String
  certificateNumber : Option String
  geocodioLatitude : Option String
  geocodioLongitude : Option String

/-- The second argument of normalizeUsdaRow: a legacy boolean or one of the
strings 'breeding' / 'exhibition'. -/
inductive FacilityTypeParam where
  | str : String → FacilityTypeParam
  | bool : Bool → FacilityTypeParam

/-- JavaScript loc.latitude || '' for a numeric field: zero and undefined are
falsy and become the empty string. -/
def jsCoordVal : Option Rat → JsVal
  | some r => if r = 0 then JsVal.str "" else JsVal.num r
  | none => JsVal.str ""

/-- Address assembly of normalizeUsdaRow. -/
def usdaAddress (loc : UsdaLoc) : String :=
  if jsTruthyS loc.street && jsTrim (loc.street.getD "") ≠ "" then
    replaceSpComma (jsTrim (loc.street.getD "") ++ ", " ++ jsTrim (loc.city.getD "") ++
      ", " ++ getStateDisplayName (jsTrim (loc.state.getD "")) ++ " " ++ loc.zip.getD "")
  else ""

/-- normalizeUsdaRow(loc, facilityTypeParam): project a USDA location onto
its flat export row, as an association list in the source's key order. -/
def normalizeUsdaRow (loc : UsdaLoc) (facilityTypeParam : FacilityTypeParam) :
    List (String × JsVal) :=
  let typeLabel0 :=
    match facilityTypeParam with
    | FacilityTypeParam.str s =>
      if s = "breeding" then "Production Facility"
      else if s = "exhibition" then "Exhibition Facility"
      else "Facility"
    | FacilityTypeParam.bool b => if b then "Slaughterhouse" else "Processing"
  let typeLabel :=
    if loc.type.getD "" ≠ "" then
      (mapFacilityType loc.type loc.establishment_name).displayLabel
    else typeLabel0
  [("Type", JsVal.str typeLabel),
   ("Name", JsVal.str (loc.establishment_name.getD "")),
   ("State", JsVal.str (getStateDisplayName (loc.state.getD ""))),
   ("City", JsVal.str (loc.city.getD "")),
   ("ZIP", JsVal.str (loc.zip.getD "")),
   ("Address", JsVal.str (usdaAddress loc)),
   ("Latitude", jsCoordVal loc.latitude),
   ("Longitude", jsCoordVal loc.longitude),
   ("EstablishmentID", JsVal.str (loc.establishment_id.getD "")),
   ("Phone", JsVal.str (loc.phone.getD "")),
   ("AnimalsProcessed", JsVal.str (loc.animals_processed.getD "")),
   ("AnimalsSlaughtered", JsVal.str (loc.animals_slaughtered.getD ""))]

/-- State extraction of normalizeLabRow:
(csz || '').split(',')[1]?.trim().split(' ')[0] || ''. -/
def labStateOf (csz : String) : String :=
  match (splitChar ',' csz).get? 1 with
  | none => ""
  | some piece => (splitChar ' ' (jsTrim piece)).headD ""

/-- City extraction shared by normalizeLabRow and normalizeInspectionRow:
(csz || '').split(',')[0]?.trim() || ''. -/
def cszCityOf (csz : String) : String :=
  jsTrim ((splitChar ',' csz).headD "")

/-- ZIP extraction shared by normalizeLabRow and normalizeInspectionRow:
(csz || '').split(/\s+/).pop() || ''. -/
def cszZipOf (csz : String) : String :=
  ((splitWs csz).getLast?).getD ""

/-- normalizeLabRow(lab): project a lab record onto its flat export row. -/
def normalizeLabRow (lab : LabRec) : List (String × JsVal) :=
  let fullAddress :=
    replaceSpComma (jsTrim (lab.addressLine1.getD "" ++ " " ++ lab.addressLine2.getD "" ++
      " " ++ lab.cityStateZip.getD ""))
  [("Type", JsVal.str "Lab"),
   ("Name", JsVal.str (lab.accountName.getD "")),
   ("State", JsVal.str (labStateOf (lab.cityStateZip.getD ""))),
   ("City", JsVal.str (cszCityOf (lab.cityStateZip.getD ""))),
   ("ZIP", JsVal.str (cszZipOf (lab.cityStateZip.getD ""))),
   ("Address", JsVal.str fullAddress),
   ("Latitude", jsCoordVal lab.latitude),
   ("Longitude", jsCoordVal lab.longitude),
   ("CertificateNumber", JsVal.str (lab.certificateNumber.getD "")),
   ("AnimalsTestedOn", JsVal.str (lab.animalsTestedOn.getD ""))]

/-- normalizeInspectionRow(report): project a license-registrant record onto
its flat export row. -/
def normalizeInspectionRow (report : InspRec) : List (String × JsVal) :=
  let type :=
    if report.licenseType == some "Class A - Breeder" then "Breeder"
    else if report.licenseType == some "Class B - Dealer" then "Dealer"
    else if report.licenseType == some "Class C - Exhibitor" then "Exhibitor"
    else "Other"
  let address :=
    jsTrim (stripEdgeCommas (report.addressLine1.getD "" ++ ", " ++ report.cityStateZip.getD ""))
  [("Type", JsVal.str type),
   ("Name", JsVal.str (report.accountName.getD "")),
   ("State", JsVal.str (report.state.getD "")),
   ("City", JsVal.str (cszCityOf (report.cityStateZip.getD ""))),
   ("ZIP", JsVal.str (cszZipOf (report.cityStateZip.getD ""))),
   ("Address", JsVal.str address),
   ("Latitude", JsVal.str (report.geocodioLatitude.getD "")),
   ("Longitude", JsVal.str (report.geocodioLongitude.getD "")),
   ("CertificateNumber", JsVal.str (report.certificateNumber.getD ""))]

/-- Value lookup in a normalized row. -/
def rowGet (row : List (String × JsVal)) (k : String) : Option JsVal :=
  (row.find? (fun p => p.1 == k)).map (fun p => p.2)

/-! ### Export column schemas -/

def usdaCols : List String :=
  ["Type", "Name", "State", "City", "ZIP", "Address", "Latitude", "Longitude",
   "EstablishmentID", "Phone", "AnimalsProcessed", "AnimalsSlaughtered"]

def labCols : List String :=
  ["Type", "Name", "State", "City", "ZIP", "Address", "Latitude", "Longitude",
   "CertificateNumber", "AnimalsTestedOn"]

def inspCols : List String :=
  ["Type", "Name", "State", "City", "ZIP", "Address", "Latitude", "Longitude",
   "CertificateNumber"]

/-- The columns shared by all three row variants. -/
def coreCols : List String :=
  ["Type", "Name", "State", "City", "ZIP", "Address", "Latitude", "Longitude"]

/-- The union export schema across the three variants. -/
def unionCols : List String :=
  usdaCols ++ ["CertificateNumber", "AnimalsTestedOn"]

/-! ### Concrete records and filter settings used as test inputs -/

/-- Does every entry of a registry table carry a non-empty display name? -/
def valsNonEmpty (t : List (String × String)) : Bool :=
  t.all (fun p => p.2 != "")

/-- An industrial record with type "Pig Slaughterhouse" and state "IA". -/
def iowaPigSlaughterhouse : UsdaLoc :=
  { establishment_name := some "Test Pork Plant"
    establishment_id := some "M1234"
    state := some "IA"
    city := some "Des Moines"
    street := some "1 Main St"
    zip := some "50301"
    phone := none
    dbas := none
    animals_slaughtered := some "Pigs"
    animals_processed := none
    type := some "Pig Slaughterhouse"
    country := none
    latitude := some 41
    longitude := some (-93) }

/-- Country US, region all, only the slaughter category enabled. -/
def fsUsSlaughterOnly : FilterState :=
  ⟨"US", "all", "", true, false, false, false, false, false⟩

/-- Country US, region all, only the breeder category enabled. -/
def fsUsBreederOnly : FilterState :=
  ⟨"US", "all", "", false, false, false, true, false, false⟩

/-- A Danish record: explicit country tag "dk", city "Aarhus", no state. -/
def danishAarhusRecord : UsdaLoc :=
  { establishment_name := some "Dansk Anlaeg"
    establishment_id := some "DK-1"
    state := none
    city := some "Aarhus"
    street := none
    zip := none
    phone := none
    dbas := none
    animals_slaughtered := none
    animals_processed := none
    type := some "Pig Slaughterhouse"
    country := some "dk"
    latitude := some 56
    longitude := some 10 }

/-- A French record: explicit country tag "fr" and no usable region code. -/
def frenchNoRegionRecord : UsdaLoc :=
  { establishment_name := some "Etablissement"
    establishment_id := some "FR-1"
    state := none
    city := some "Paris"
    street := none
    zip := none
    phone := none
    dbas := none
    animals_slaughtered := none
    animals_processed := none
    type := some "Cattle Slaughterhouse"
    country := some "fr"
    latitude := some 48
    longitude := some 2 }

/-- An industrial record with a blank state, no country tag, no German
establishment-ID code, and coordinates inside Germany's bounding box. -/
def germanCoordRecord : UsdaLoc :=
  { establishment_name := some "Schlachthof"
    establishment_id := none
    state := none
    city := none
    street := none
    zip := none
    phone := none
    dbas := none
    animals_slaughtered := none
    animals_processed := none
    type := some "Pig Slaughterhouse"
    country := none
    latitude := some 50
    longitude := some 10 }

/-- A lab record with every field absent. -/
def sampleLab : LabRec :=
  { accountName := none, addressLine1 := none, addressLine2 := none,
    cityStateZip := none, certificateNumber := none, animalsTestedOn := none,
    registrationType := none, latitude := none, longitude := none }

/-- A USDA record with every field absent. -/
def sampleUsda : UsdaLoc :=
  { establishment_name := none, establishment_id := none, state := none,
    city := none, street := none, zip := none, phone := none, dbas := none,
    animals_slaughtered := none, animals_processed := none, type := none,
    country := none, latitude := none, longitude := none }

/-- An inspection record with every field absent. -/
def sampleInsp : InspRec :=
  { accountName := none, licenseType := none, addressLine1 := none,
    cityStateZip := none, state := none, certificateNumber := none,
    geocodioLatitude := none, geocodioLongitude := none }

/-- An inspection record whose license type is outside the three-class
enumeration. -/
def sampleUnlicensedInsp : InspRec :=
  { accountName := some "Some Registrant", licenseType := some "Class D - Research",
    addressLine1 := none, cityStateZip := none, state := some "IA",
    certificateNumber := some "42-C-0001", geocodioLatitude := some "41.6",
    geocodioLongitude := some "-93.6" }

/-! ### Helper lemmas -/

theorem lookupTab_val_mem {t : List (String × String)} {k v : String}
    (h : lookupTab t k = some v) : ∃ p ∈ t, p.2 = v := by
  unfold lookupTab at h
  cases hf : t.find? (fun p => p.1 == k) with
  | none => rw [hf] at h; simp at h
  | some p =>
    rw [hf] at h
    exact ⟨p, List.mem_of_find?_eq_some hf, by simpa using h⟩

theorem val_ne_of_lookup {t : List (String × String)} {k v : String}
    (ht : valsNonEmpty t = true) (h : lookupTab t k = some v) : v ≠ "" := by
  obtain ⟨p, hp, hv⟩ := lookupTab_val_mem h
  have := List.all_eq_true.mp ht p hp
  simp only [bne_iff_ne, ne_eq, decide_eq_true_eq] at this
  exact hv ▸ this

theorem jsOrS_ne_empty {o : Option String} {b : String}
    (ho : ∀ s, o = some s → s ≠ "") (hb : b ≠ "") : jsOrS o b ≠ "" := by
  cases o with
  | none => simpa [jsOrS] using hb
  | some s =>
    have hs := ho s rfl
    simp only [jsOrS, if_neg hs]
    exact hs

theorem lookup_none_of_hasKey_false {t : List (String × String)} {k : String}
    (h : hasKey t k = false) : lookupTab t k = none := by
  unfold hasKey at h
  cases hl : lookupTab t k with
  | none => rfl
  | some v => rw [hl] at h; simp at h

theorem isGermanState_eq_hasKey (c : String) :
    isGermanState c = hasKey GERMAN_STATE_NAMES c := by
  by_cases h : c = "DE_UNKNOWN"
  · subst h; decide
  · simp [isGermanState, h]

theorem isSpanishState_eq_hasKey (c : String) :
    isSpanishState c = hasKey SPANISH_STATE_NAMES c := by
  by_cases h : c = "ES_UNKNOWN"
  · subst h; decide
  · simp [isSpanishState, h]

theorem isFrenchState_eq_hasKey (c : String) :
    isFrenchState c = hasKey FRENCH_STATE_NAMES c := by
  by_cases h : c = "FR_UNKNOWN"
  · subst h; decide
  · simp [isFrenchState, h]

theorem jsCoordVal_ne_undef (o : Option Rat) : jsCoordVal o ≠ JsVal.undef := by
  cases o with
  | none => simp [jsCoordVal]
  | some r =>
    simp only [jsCoordVal]
    split <;> simp

theorem germanIdCodeL_mem {l : List Char} {code : String}
    (h : germanIdCodeL l = some code) : GERMAN_ID_CODES.contains code = true := by
  rcases l with _ | ⟨c1, _ | ⟨c2, _ | ⟨c3, t⟩⟩⟩
  · simp [germanIdCodeL] at h
  · simp [germanIdCodeL] at h
  · simp [germanIdCodeL] at h
  · unfold germanIdCodeL at h
    by_cases hc : (GERMAN_ID_CODES.contains (String.mk [c1, c2]) && isJsSpace c3) = true
    · simp only [if_pos hc] at h
      obtain rfl := Option.some.inj h
      exact ((Bool.and_eq_true _ _).mp hc).1
    · simp only [if_neg hc] at h
      exact absurd h (by simp)

theorem germanIdCode_mem {o : Option String} {code : String}
    (h : germanIdCode o = some code) : GERMAN_ID_CODES.contains code = true := by
  cases o with
  | none => simp [germanIdCode] at h
  | some id => exact germanIdCodeL_mem h

theorem goodMapping_ite (c : Prop) [Decidable c] {a b : FacilityMapping}
    (ha : GoodMapping a) (hb : GoodMapping b) : GoodMapping (if c then a else b) := by
  by_cases h : c
  · rwa [if_pos h]
  · rwa [if_neg h]

theorem germanCode_country {code : String}
    (hc : GERMAN_ID_CODES.contains code = true) :
    getSelectedCountryForState code = "DE" := by
  have hm : code ∈ GERMAN_ID_CODES := by
    simpa using hc
  fin_cases hm <;> decide

/-! ### Claim theorems -/

/-- C1: a dataset record with type "Pig Slaughterhouse" and state "IA" is in
the visible set under selected country "US", selected region "all" with only
the slaughter category enabled, and is excluded with only the breeder
category enabled. -/
theorem claim_C1_filter_end_to_end :
    usdaVisible fsUsSlaughterOnly iowaPigSlaughterhouse = true ∧
    usdaVisible fsUsBreederOnly iowaPigSlaughterhouse = false := by
  decide

/-- C2 counterexample: on input "Mixed Slaughterhouse (Cattle, Pig)" the
facility-type mapper produces the label "Mixed Slaughterhouse (cattle, pig)",
whose parenthetical was lowercased, so the label does NOT contain the
substring "Cattle, Pig" claimed by the spec. -/
theorem claim_C2_counterexample :
    (mapFacilityType (some "Mixed Slaughterhouse (Cattle, Pig)") none).displayLabel
      = "Mixed Slaughterhouse (cattle, pig)" ∧
    sIncludes (mapFacilityType (some "Mixed Slaughterhouse (Cattle, Pig)") none).displayLabel
      "Cattle, Pig" = false := by
  decide

/-- C2 (amended): on input "Mixed Slaughterhouse (Cattle, Pig)" the mapper
returns category slaughter and a label containing "cattle, pig" (the
parenthetical, lowercased); the parenthetical-extraction rule fires before
the generic contains-slaughter fallback, whose label would have been the bare
"Slaughterhouse". -/
theorem claim_C2_mixed_slaughterhouse :
    (mapFacilityType (some "Mixed Slaughterhouse (Cattle, Pig)") none).category = "slaughter" ∧
    sIncludes (mapFacilityType (some "Mixed Slaughterhouse (Cattle, Pig)") none).displayLabel
      "cattle, pig" = true ∧
    (mapFacilityType (some "Mixed Slaughterhouse (Cattle, Pig)") none).displayLabel
      ≠ "Slaughterhouse" := by
  decide

/-- C8: the facility-type mapper and the three row normalizers are pure
functions of their arguments: repeated application to identical input yields
identical output. -/
theorem claim_C8_deterministic (s n : Option String) (loc : UsdaLoc)
    (p : FacilityTypeParam) (lab : LabRec) (rep : InspRec) :
    mapFacilityType s n = mapFacilityType s n ∧
    normalizeUsdaRow loc p = normalizeUsdaRow loc p ∧
    normalizeLabRow lab = normalizeLabRow lab ∧
    normalizeInspectionRow rep = normalizeInspectionRow rep :=
  ⟨rfl, rfl, rfl, rfl⟩

/-- C9: for every input (undefined, empty, or any string) the facility-type
mapper's category is one of slaughter, processing, breeder, exhibitor, and
its iconType always equals its category. -/
theorem claim_C9_category_invariant (s n : Option String) :
    (mapFacilityType s n).iconType = (mapFacilityType s n).category ∧
    ((mapFacilityType s n).category = "slaughter" ∨
     (mapFacilityType s n).category = "processing" ∨
     (mapFacilityType s n).category = "breeder" ∨
     (mapFacilityType s n).category = "exhibitor") := by
  suffices h : GoodMapping (mapFacilityType s n) from h
  simp only [mapFacilityType]
  cases List.find? (fun a => sIncludes (jsToLower (s.getD "")) a) animalTypes <;>
    cases matchParenGroup "mixed farm (" (jsToLower (s.getD "")) <;>
      cases matchParenGroup "mixed slaughterhouse (" (jsToLower (s.getD "")) <;>
        repeat'
          first
          | exact ⟨rfl, Or.inl rfl⟩
          | exact ⟨rfl, Or.inr (Or.inl rfl)⟩
          | exact ⟨rfl, Or.inr (Or.inr (Or.inl rfl))⟩
          | exact ⟨rfl, Or.inr (Or.inr (Or.inr rfl))⟩
          | apply goodMapping_ite

/-- C10: an inspection-report record whose License Type is none of the three
class strings (including a missing field) normalizes to a row whose Type is
"Other". -/
theorem claim_C10_license_other (report : InspRec)
    (hA : report.licenseType ≠ some "Class A - Breeder")
    (hB : report.licenseType ≠ some "Class B - Dealer")
    (hC : report.licenseType ≠ some "Class C - Exhibitor") :
    rowGet (normalizeInspectionRow report) "Type" = some (JsVal.str "Other") := by
  have eA : (report.licenseType == some "Class A - Breeder") = false := by
    simpa using hA
  have eB : (report.licenseType == some "Class B - Dealer") = false := by
    simpa using hB
  have eC : (report.licenseType == some "Class C - Exhibitor") = false := by
    simpa using hC
  simp [normalizeInspectionRow, rowGet, eA, eB, eC]

/-- C10 witness: a concrete record with license type "Class D - Research"
normalizes to Type "Other". -/
theorem claim_C10_witness :
    rowGet (normalizeInspectionRow sampleUnlicensedInsp) "Type"
      = some (JsVal.str "Other") :=
  claim_C10_license_other sampleUnlicensedInsp (by decide) (by decide) (by decide)

/-- C3 counterexample: with selected country DK, a record tagged with the
explicit country field "dk" does NOT match the region filter regardless of
the selected region — the Danish branch compares the record's city against
the selection, so a dk record with city "Aarhus" fails region "Odense". -/
theorem claim_C3_counterexample :
    danishAarhusRecord.country = some "dk" ∧
    usdaCountryMatch "DK" danishAarhusRecord = true ∧
    usdaStateMatch "DK" "Odense" danishAarhusRecord = false := by
  decide

/-- C3 (amended): under selected country FR, every record tagged with the
explicit country "fr" matches both the country filter and the region filter
whatever region is selected; under selected country DK the region filter
instead holds exactly when the selection is "all" or equals the record's
city. -/
theorem claim_C3_degraded_region :
    (∀ (selectedState : String) (loc : UsdaLoc), loc.country = some "fr" →
       usdaCountryMatch "FR" loc = true ∧ usdaStateMatch "FR" selectedState loc = true) ∧
    (∀ (selectedState : String) (loc : UsdaLoc),
       usdaStateMatch "DK" selectedState loc = true ↔
         (selectedState = "all" ∨ loc.city = some selectedState)) := by
  constructor
  · intro selectedState loc h
    constructor
    · simp [usdaCountryMatch, h]
    · simp [usdaStateMatch]
  · intro selectedState loc
    simp [usdaStateMatch]

/-- C3 witness: the concrete French record with no usable region code is
matched under country FR and region "anything"; the Danish record matches
under region "all". -/
theorem claim_C3_witness :
    usdaCountryMatch "FR" frenchNoRegionRecord = true ∧
    usdaStateMatch "FR" "anything" frenchNoRegionRecord = true ∧
    usdaStateMatch "DK" "all" danishAarhusRecord = true :=
  ⟨(claim_C3_degraded_region.1 "anything" frenchNoRegionRecord rfl).1,
   (claim_C3_degraded_region.1 "anything" frenchNoRegionRecord rfl).2,
   (claim_C3_degraded_region.2 "all" danishAarhusRecord).mpr (Or.inl rfl)⟩

/-- C4 counterexample: the whitespace-only region code " " is a non-empty
string present in no registry table, yet the classifier returns "all", not
"UK", because isUKState additionally requires a non-blank trimmed code. -/
theorem claim_C4_counterexample :
    (" " : String) ≠ "" ∧
    hasKey US_STATE_NAMES " " = false ∧ hasKey GERMAN_STATE_NAMES " " = false ∧
    hasKey SPANISH_STATE_NAMES " " = false ∧ hasKey FRENCH_STATE_NAMES " " = false ∧
    getSelectedCountryForState " " ≠ "UK" ∧
    getSelectedCountryForState " " = "all" := by
  decide

/-- C4 (amended): a region code that is a key of exactly one of the four
registry tables classifies as that table's country; a code in no table whose
trimmed form is non-empty classifies as UK; the classifier is total. -/
theorem claim_C4_country_classifier (c : String) :
    (hasKey US_STATE_NAMES c = true → hasKey GERMAN_STATE_NAMES c = false →
     hasKey SPANISH_STATE_NAMES c = false → hasKey FRENCH_STATE_NAMES c = false →
     getSelectedCountryForState c = "US") ∧
    (hasKey US_STATE_NAMES c = false → hasKey GERMAN_STATE_NAMES c = true →
     hasKey SPANISH_STATE_NAMES c = false → hasKey FRENCH_STATE_NAMES c = false →
     getSelectedCountryForState c = "DE") ∧
    (hasKey US_STATE_NAMES c = false → hasKey GERMAN_STATE_NAMES c = false →
     hasKey SPANISH_STATE_NAMES c = true → hasKey FRENCH_STATE_NAMES c = false →
     getSelectedCountryForState c = "ES") ∧
    (hasKey US_STATE_NAMES c = false → hasKey GERMAN_STATE_NAMES c = false →
     hasKey SPANISH_STATE_NAMES c = false → hasKey FRENCH_STATE_NAMES c = true →
     getSelectedCountryForState c = "FR") ∧
    (hasKey US_STATE_NAMES c = false → hasKey GERMAN_STATE_NAMES c = false →
     hasKey SPANISH_STATE_NAMES c = false → hasKey FRENCH_STATE_NAMES c = false →
     jsTrim c ≠ "" → getSelectedCountryForState c = "UK") := by
  have hne : jsTrim c ≠ "" → c ≠ "" := by
    intro h hc
    exact h (by rw [hc]; rfl)
  refine ⟨?_, ?_, ?_, ?_, ?_⟩
  · intro h1 h2 h3 h4
    simp [getSelectedCountryForState, isUSState, h1]
  · intro h1 h2 h3 h4
    simp [getSelectedCountryForState, isUSState, h1, isGermanState_eq_hasKey, h2]
  · intro h1 h2 h3 h4
    simp [getSelectedCountryForState, isUSState, h1, isGermanState_eq_hasKey, h2,
      isSpanishState_eq_hasKey, h3]
  · intro h1 h2 h3 h4
    simp [getSelectedCountryForState, isUSState, h1, isGermanState_eq_hasKey, h2,
      isSpanishState_eq_hasKey, h3, isFrenchState_eq_hasKey, h4]
  · intro h1 h2 h3 h4 h5
    simp [getSelectedCountryForState, isUSState, isUKState, h1,
      isGermanState_eq_hasKey, h2, isSpanishState_eq_hasKey, h3,
      isFrenchState_eq_hasKey, h4, h5, hne h5]

/-- C4 witness: concrete codes: "IA" classifies as US, "BW" as DE, "Galicia"
as ES, "75" as FR, and the unrecognised "Cornwall" as UK. -/
theorem claim_C4_witness :
    getSelectedCountryForState "IA" = "US" ∧
    getSelectedCountryForState "BW" = "DE" ∧
    getSelectedCountryForState "Galicia" = "ES" ∧
    getSelectedCountryForState "75" = "FR" ∧
    getSelectedCountryForState "Cornwall" = "UK" :=
  ⟨(claim_C4_country_classifier "IA").1 (by decide) (by decide) (by decide) (by decide),
   (claim_C4_country_classifier "BW").2.1 (by decide) (by decide) (by decide) (by decide),
   (claim_C4_country_classifier "Galicia").2.2.1 (by decide) (by decide) (by decide) (by decide),
   (claim_C4_country_classifier "75").2.2.2.1 (by decide) (by decide) (by decide) (by decide),
   (claim_C4_country_classifier "Cornwall").2.2.2.2 (by decide) (by decide) (by decide)
     (by decide) (by decide)⟩

/-- C5: an industrial record with a blank or missing state, no German
establishment-ID code and no explicit country tag whose coordinates lie
strictly inside latitude 47-56 and longitude 5-16 is assigned the DE_UNKNOWN
sentinel by the loader pass, which then classifies as country DE; moreover
the loader pass only ever rewrites a state to a German state code or
DE_UNKNOWN, never to any other country's region. -/
theorem claim_C5_german_bbox :
    (∀ (loc : UsdaLoc) (lat lng : Rat),
       jsTrim (loc.state.getD "") = "" →
       germanIdCode loc.establishment_id = none →
       loc.country = none →
       loc.latitude = some lat → loc.longitude = some lng →
       47 < lat → lat < 56 → 5 < lng → lng < 16 →
       (processGermanLocation loc).state = some "DE_UNKNOWN" ∧
       getSelectedCountryForState ((processGermanLocation loc).state.getD "") = "DE") ∧
    (∀ loc : UsdaLoc,
       (processGermanLocation loc).state = loc.state ∨
       getSelectedCountryForState ((processGermanLocation loc).state.getD "") = "DE") := by
  constructor
  · intro loc lat lng h1 h2 _h3 h4 h5 h6 h7 h8 h9
    have hst : (processGermanLocation loc).state = some "DE_UNKNOWN" := by
      simp [processGermanLocation, h1, h2, h4, h5, jsNumGT, jsNumLT, h6, h7, h8, h9]
    refine ⟨hst, ?_⟩
    rw [hst]
    decide
  · intro loc
    unfold processGermanLocation
    by_cases hb : (loc.state.getD "" == "" || jsTrim (loc.state.getD "") == "") = true
    · rw [if_pos hb]
      cases hg : germanIdCode loc.establishment_id with
      | some code =>
        right
        simpa using germanCode_country (germanIdCode_mem hg)
      | none =>
        by_cases hbb : (jsNumGT loc.latitude 47 && jsNumLT loc.latitude 56 &&
            jsNumGT loc.longitude 5 && jsNumLT loc.longitude 16) = true
        · rw [if_pos hbb]
          right
          show getSelectedCountryForState "DE_UNKNOWN" = "DE"
          decide
        · rw [if_neg hbb]
          left
          rfl
    · rw [if_neg hb]
      left
      rfl

/-- C5 witness: a concrete blank-state record at latitude 50, longitude 10
receives DE_UNKNOWN and classifies as DE. -/
theorem claim_C5_witness :
    (processGermanLocation germanCoordRecord).state = some "DE_UNKNOWN" ∧
    getSelectedCountryForState ((processGermanLocation germanCoordRecord).state.getD "")
      = "DE" :=
  claim_C5_german_bbox.1 germanCoordRecord 50 10 rfl rfl rfl rfl rfl
    (by norm_num) (by norm_num) (by norm_num) (by norm_num)

/-- C6 counterexample: "EstablishmentID" belongs to the union export schema,
but the row produced by normalizeLabRow does not contain that column at all —
union columns missing from a variant are absent from its rows, not present as
empty strings (the CSV serializer fills them in later). -/
theorem claim_C6_counterexample :
    ("EstablishmentID" : String) ∈ unionCols ∧
    ("EstablishmentID" : String) ∉ (normalizeLabRow sampleLab).map Prod.fst := by
  decide

/-- C6 (amended): each normalizer emits a fixed column list for every input —
the 12 USDA columns, 10 lab columns and 9 inspection columns — each of which
contains all eight shared core columns; every emitted value is defined (a
string or a number, never undefined/null), with missing source fields mapped
to the empty string.  Columns of the other variants are absent from a row and
only supplied (as empty) by the downstream CSV serializer. -/
theorem claim_C6_row_schema (loc : UsdaLoc) (p : FacilityTypeParam)
    (lab : LabRec) (rep : InspRec) :
    ((normalizeUsdaRow loc p).map Prod.fst = usdaCols ∧
     (normalizeLabRow lab).map Prod.fst = labCols ∧
     (normalizeInspectionRow rep).map Prod.fst = inspCols) ∧
    (∀ c ∈ coreCols, c ∈ usdaCols ∧ c ∈ labCols ∧ c ∈ inspCols) ∧
    (∀ kv : String × JsVal,
       (kv ∈ normalizeUsdaRow loc p ∨ kv ∈ normalizeLabRow lab ∨
        kv ∈ normalizeInspectionRow rep) →
       kv.2 ≠ JsVal.undef) := by
  refine ⟨⟨rfl, rfl, rfl⟩, by decide, ?_⟩
  intro kv hkv
  rcases hkv with h | h | h
  · simp only [normalizeUsdaRow, List.mem_cons, List.not_mem_nil, or_false] at h
    rcases h with rfl | rfl | rfl | rfl | rfl | rfl | rfl | rfl | rfl | rfl | rfl | rfl <;>
      first
      | exact jsCoordVal_ne_undef _
      | simp
  · simp only [normalizeLabRow, List.mem_cons, List.not_mem_nil, or_false] at h
    rcases h with rfl | rfl | rfl | rfl | rfl | rfl | rfl | rfl | rfl | rfl <;>
      first
      | exact jsCoordVal_ne_undef _
      | simp
  · simp only [normalizeInspectionRow, List.mem_cons, List.not_mem_nil, or_false] at h
    rcases h with rfl | rfl | rfl | rfl | rfl | rfl | rfl | rfl | rfl <;>
      first
      | exact jsCoordVal_ne_undef _
      | simp

/-- C6 witness: the all-absent lab record produces exactly the lab column
list, "Type" is a core and USDA column, and the concrete lab row entry
("Type", "Lab") carries a defined value. -/
theorem claim_C6_witness :
    (normalizeLabRow sampleLab).map Prod.fst = labCols ∧
    ("Type" : String) ∈ usdaCols ∧
    (("Type", JsVal.str "Lab") : String × JsVal).2 ≠ JsVal.undef :=
  ⟨(claim_C6_row_schema sampleUsda (FacilityTypeParam.bool true) sampleLab sampleInsp).1.2.1,
   ((claim_C6_row_schema sampleUsda (FacilityTypeParam.bool true) sampleLab sampleInsp).2.1
     "Type" (by decide)).1,
   (claim_C6_row_schema sampleUsda (FacilityTypeParam.bool true) sampleLab sampleInsp).2.2
     ("Type", JsVal.str "Lab") (Or.inr (Or.inl (by decide)))⟩

/-- C7 counterexample: on the empty-string input the display-name lookup
returns the empty string, not a non-empty string. -/
theorem claim_C7_counterexample : getStateDisplayName "" = "" := by
  decide

/-- C7 (amended): the display-name lookup is total and returns a non-empty
string for every non-empty input; a code contained in no registry table is
returned unchanged (so the empty string, and only such degenerate inputs,
yields an empty result). -/
theorem claim_C7_display_name (c : String) :
    (c ≠ "" → getStateDisplayName c ≠ "") ∧
    (hasKey US_STATE_NAMES c = false → hasKey GERMAN_STATE_NAMES c = false →
     hasKey SPANISH_STATE_NAMES c = false → hasKey FRENCH_STATE_NAMES c = false →
     getStateDisplayName c = c) := by
  constructor
  · intro hc
    unfold getStateDisplayName
    apply jsOrS_ne_empty (fun s hs => val_ne_of_lookup (t := US_STATE_NAMES) (by decide) hs)
    apply jsOrS_ne_empty (fun s hs => val_ne_of_lookup (t := GERMAN_STATE_NAMES) (by decide) hs)
    apply jsOrS_ne_empty (fun s hs => val_ne_of_lookup (t := SPANISH_STATE_NAMES) (by decide) hs)
    exact jsOrS_ne_empty (fun s hs => val_ne_of_lookup (t := FRENCH_STATE_NAMES) (by decide) hs) hc
  · intro h1 h2 h3 h4
    unfold getStateDisplayName
    rw [lookup_none_of_hasKey_false h1, lookup_none_of_hasKey_false h2,
      lookup_none_of_hasKey_false h3, lookup_none_of_hasKey_false h4]
    rfl

/-- C7 witness: the unrecognised code "ZZ" yields a non-empty display name,
namely "ZZ" itself. -/
theorem claim_C7_witness :
    getStateDisplayName "ZZ" ≠ "" ∧ getStateDisplayName "ZZ" = "ZZ" :=
  ⟨(claim_C7_display_name "ZZ").1 (by decide),
   (claim_C7_display_name "ZZ").2 (by decide) (by decide) (by decide) (by decide)⟩

end UntilEveryCage
